import Mathlib

/-!
Verification of `sample_annotator/clients/gold_client.py`.

Shallow embedding of the GOLD client: the data model (studies, biosamples,
projects), identifier normalization, the retrying HTTP fetcher, the
study/biosample/project stitcher, the batch orchestrator over biosample
ids, the memoizing cache, and the CLI input validation.  The network is
modelled as a `GoldAPI` record of query functions; the logger's
observable events (unmatched-project warnings, per-id fetch messages)
are carried as explicit result components where a claim refers to them.
-/

/-- A GOLD project record: `projectGoldId` plus the foreign key
`biosampleGoldId` (which the upstream API may return as JSON null, hence
`Option`). -/
structure Project where
  projectGoldId : String
  biosampleGoldId : Option String
deriving DecidableEq

/-- A GOLD biosample record: its identifier (possibly null upstream), the
list of woven-in projects (the `"projects"` key of the source, created on
first append; here a list starting empty), and the remaining descriptive
fields abstracted as key/value pairs. -/
structure Biosample where
  biosampleGoldId : Option String
  projects : List Project := []
  fields : List (String × String) := []
deriving DecidableEq

/-- A GOLD study record: `studyGoldId`, the biosample list injected by
`fetch_study` / `fetch_study_by_biosample_id` when requested, and the
remaining descriptive fields. -/
structure Study where
  studyGoldId : String
  biosamples : List Biosample := []
  fields : List (String × String) := []
deriving DecidableEq

/-- The four GOLD REST queries the client issues (endpoint plus filter
parameter).  Each query function returns the JSON array the API would
send for that filter. -/
structure GoldAPI where
  biosamplesByStudy : String → List Biosample
  projectsByStudy : String → List Project
  studiesByStudyId : String → List Study
  studiesByBiosampleId : String → List Study

/-- `leadsWith pat l`: does `l` start with `pat`?  (Python `str.startswith`,
and the occurrence test of `str.replace`.) -/
def leadsWith : List Char → List Char → Bool
  | [], _ => true
  | _ :: _, [] => false
  | p :: ps, c :: cs => p == c && leadsWith ps cs

/-- Python `s.replace(pat, "")`: scan left to right, drop every
non-overlapping occurrence of `pat`, never rescanning already-emitted
text.  `skip` counts characters still to be dropped from an occurrence
matched earlier in the scan. -/
def replaceAllAux (pat : List Char) : Nat → List Char → List Char
  | _, [] => []
  | n + 1, _ :: rest => replaceAllAux pat n rest
  | 0, c :: rest =>
    if !pat.isEmpty && leadsWith pat (c :: rest) then
      replaceAllAux pat (pat.length - 1) rest
    else
      c :: replaceAllAux pat 0 rest

/-- `GoldClient._normalize_id`: `id.replace("gold:", "")`.  Python
`str.replace` removes every occurrence of the substring, not only a
leading CURIE prefix. -/
def normalize_id (id : String) : String :=
  ⟨replaceAllAux "gold:".data 0 id.data⟩

/-- The message of the exception `_fetch_url` raises once its retries are
exhausted (f-string of line 61 of the source). -/
def fetchFailMsg (endpoint_url : String) (attempt : Nat) : String :=
  "API call to " ++ endpoint_url ++ " failed after " ++ toString attempt ++ " attempts"

/-- The retry loop of `_fetch_url`.  `responses n` is the (status,
payload) pair the GET of attempt `n` returns; a 200 returns the payload
together with the total seconds slept so far, any other status sleeps
`5 ^ attempt` seconds and retries; exhausting the four attempts raises. -/
def fetch_url_go {α : Type} (endpoint_url : String) (responses : Nat → Nat × α)
    (attempt slept : Nat) : Except String (α × Nat) :=
  if h4 : attempt < 4 then
    if (responses attempt).1 = 200 then .ok ((responses attempt).2, slept)
    else fetch_url_go endpoint_url responses (attempt + 1) (slept + 5 ^ attempt)
  else
    .error (fetchFailMsg endpoint_url attempt)
termination_by 4 - attempt
decreasing_by omega

/-- `_fetch_url` (the function under the memoizing decorators): run the
retry loop from attempt 0, nothing slept yet.  The result carries the
cumulative seconds slept, modelling the calls to `sleep`. -/
def fetch_url {α : Type} (endpoint_url : String) (responses : Nat → Nat × α) :
    Except String (α × Nat) :=
  fetch_url_go endpoint_url responses 0 0

/-- The module-level `EXCLUSION_LIST` (currently empty in the source). -/
def EXCLUSION_LIST : List String := []

/-- `GoldClient.fetch_projects_by_study`: normalize the study id and query
the projects endpoint filtered by `studyGoldId`. -/
def fetch_projects_by_study (api : GoldAPI) (id : String) : List Project :=
  api.projectsByStudy (normalize_id id)

/-- The dict comprehension `samples_by_id = {sample["biosampleGoldId"]:
sample for sample in biosamples}`, as a lookup from key to the index of
the sample object the dict maps the key to.  A later sample with the same
`biosampleGoldId` overwrites an earlier one, hence the last matching
index wins; a sample whose id is JSON null is keyed under `none`, exactly
as Python keys a dict by `None`. -/
def dictLookup : List Biosample → Option String → Option Nat
  | [], _ => none
  | b :: rest, key =>
    match dictLookup rest key with
    | some j => some (j + 1)
    | none => if b.biosampleGoldId = key then some 0 else none

/-- Replace the element at index `i` by `f` of it (in-place mutation of
the sample object shared between `samples_by_id` and the result list). -/
def modifyIdx (f : Biosample → Biosample) : List Biosample → Nat → List Biosample
  | [], _ => []
  | b :: rest, 0 => f b :: rest
  | b :: rest, n + 1 => b :: modifyIdx f rest n

/-- `sample["projects"].append(project)` (creating the list if absent). -/
def addProject (p : Project) (s : Biosample) : Biosample :=
  { s with projects := s.projects ++ [p] }

/-- One iteration of the weaving loop of `fetch_biosamples_by_study`
(source lines 139-157) on the state (samples, logged warnings):
a project whose `biosampleGoldId` is null is skipped silently (`continue`
before the membership test); a project whose id is not a key of
`samples_by_id` is logged and skipped; otherwise the project is appended
to the matching sample's project list.  The warning list records the
offending `sample_id` of each logged unmatched project.

The source builds `samples_by_id` once before the loop; since appending a
project never changes any `biosampleGoldId`, recomputing the lookup at
each step returns the same index, so this state-passing rendering agrees
with the mutate-through-the-dict original. -/
def weaveStep (bs : List Biosample) (ws : List String) (p : Project) :
    List Biosample × List String :=
  match p.biosampleGoldId with
  | none => (bs, ws)
  | some sid =>
    match dictLookup bs (some sid) with
    | none => (bs, ws ++ [sid])
    | some i => (modifyIdx (addProject p) bs i, ws)

/-- The full weaving loop: fold `weaveStep` over the fetched projects,
starting from the fetched biosamples and no warnings. -/
def weave (bs : List Biosample) (ps : List Project) : List Biosample × List String :=
  ps.foldl (fun st p => weaveStep st.1 st.2 p) (bs, [])

/-- `GoldClient.fetch_biosamples_by_study`: normalize the id, short-circuit
ids on the (empty) exclusion list, fetch the study's biosamples and, when
`include_project`, weave the study's projects into them.  The warnings of
the weave go to the logger; the function returns the biosample list. -/
def fetch_biosamples_by_study (api : GoldAPI) (id : String)
    (include_project : Bool := true) : List Biosample :=
  let id := normalize_id id
  if id ∈ EXCLUSION_LIST then []
  else
    let biosamples := api.biosamplesByStudy id
    if include_project then
      (weave biosamples (fetch_projects_by_study api id)).1
    else
      biosamples

/-- `GoldClient.fetch_study`: `results[0]` of the studies query — an empty
result list raises `IndexError: list index out of range`, modelled as the
error case; with `include_biosamples` the biosample list for the
normalized input id is injected into the study. -/
def fetch_study (api : GoldAPI) (id : String) (include_biosamples : Bool := false) :
    Except String Study :=
  let id := normalize_id id
  match api.studiesByStudyId id with
  | [] => .error "list index out of range"
  | s :: _ =>
    .ok (if include_biosamples then
          { s with biosamples := fetch_biosamples_by_study api id true }
         else s)

/-- `GoldClient.fetch_study_by_biosample_id`: reverse lookup of the study
containing a biosample; zero results synthesize the stub study
`GsFAKE-<normalized id>` instead of failing; with `include_biosamples`
the biosamples of `study["studyGoldId"]` are injected. -/
def fetch_study_by_biosample_id (api : GoldAPI) (id : String)
    (include_biosamples : Bool := false) : Study :=
  let id := normalize_id id
  let study :=
    match api.studiesByBiosampleId id with
    | [] => { studyGoldId := "GsFAKE-" ++ id }
    | s :: _ => s
  if include_biosamples then
    { study with biosamples := fetch_biosamples_by_study api study.studyGoldId true }
  else
    study

/-- Python dict assignment `m[k] = v`: overwrite the entry of an existing
key (keeping its position), append a new key at the end. -/
def dictInsert (m : List (Option String × String)) (k : Option String) (v : String) :
    List (Option String × String) :=
  if k ∈ m.map Prod.fst then
    m.map (fun kv => if kv.1 = k then (k, v) else kv)
  else
    m ++ [(k, v)]

/-- The loop of `GoldClient.fetch_studies_by_biosample_ids` over the input
ids, carrying the `biosample_to_study` dict, the accumulated studies and
(modelling the `"Fetched study for …"` log lines) the list of input ids
that actually triggered a full-study fetch.  An id already a key of the
dict is skipped; otherwise its study is fetched with biosamples and every
fetched biosample is mapped to the study's id. -/
def fetch_studies_by_biosample_ids_go (api : GoldAPI) :
    List String → List (Option String × String) → List Study → List String →
    List Study × List String
  | [], _, studies, fetched => (studies, fetched)
  | biosample_id :: rest, m, studies, fetched =>
    if some biosample_id ∈ m.map Prod.fst then
      fetch_studies_by_biosample_ids_go api rest m studies fetched
    else
      let study := fetch_study_by_biosample_id api biosample_id true
      let m2 := study.biosamples.foldl
        (fun m2 biosample => dictInsert m2 biosample.biosampleGoldId study.studyGoldId) m
      fetch_studies_by_biosample_ids_go api rest m2 (studies ++ [study])
        (fetched ++ [biosample_id])

/-- `GoldClient.fetch_studies_by_biosample_ids`: run the loop from an empty
dict.  First component: the studies the source returns, in first-resolved
order; second component: the ids for which a full-study fetch was issued. -/
def fetch_studies_by_biosample_ids (api : GoldAPI) (ids : List String) :
    List Study × List String :=
  fetch_studies_by_biosample_ids_go api ids [] [] []

/-- `GoldClient.fetch_studies`: fan-out of `fetch_study`; the first
`IndexError` aborts the comprehension, hence `mapM` over `Except`. -/
def fetch_studies (api : GoldAPI) (ids : List String)
    (include_biosamples : Bool := false) : Except String (List Study) :=
  ids.mapM (fun id => fetch_study api id include_biosamples)

/-- The key the memoizing cache uses: the exact argument tuple of
`_fetch_url`. -/
structure FetchKey where
  endpoint_url : String
  params : List (String × String)
  user : String
  passwd : String
deriving DecidableEq

/-- Lookup in the persistent cache (keys are unique, insertion order). -/
def cacheLookup {α : Type} (cache : List (FetchKey × α)) (k : FetchKey) : Option α :=
  match cache with
  | [] => none
  | (k2, v) :: rest => if k2 = k then some v else cacheLookup rest k

/-- Modelled from the spec: the `diskcache` `cache.memoize()` decorator
wrapped around `_fetch_url` (source lines 44-46) is external library code
not present in this repository; per spec §4.2 it provides get-or-compute
semantics keyed by the exact (endpoint URL, params, credentials) tuple,
with successful results persisted and exceptions not cached.  Returns the
result, the updated cache, and the number of underlying network calls
this invocation performed (0 when answered from the cache). -/
def memoized_fetch {α : Type} (cache : List (FetchKey × α)) (k : FetchKey)
    (run : Unit → Except String α) :
    Except String α × List (FetchKey × α) × Nat :=
  match cacheLookup cache k with
  | some v => (.ok v, cache, 0)
  | none =>
    match run () with
    | .ok v => (.ok v, cache ++ [(k, v)], 1)
    | .error e => (.error e, cache, 1)

/-- Whether the stripped input lines were study ids or biosample ids. -/
inductive IdType where
  | study
  | biosample
deriving DecidableEq

/-- Python `str.startswith` on whole strings. -/
def strStartsWith (s pre : String) : Bool :=
  leadsWith pre.data s.data

/-- Right-strip: drop trailing whitespace (the tail half of Python
`str.strip`). -/
def rstrip : List Char → List Char
  | [] => []
  | c :: rest =>
    match rstrip rest with
    | [] => if c.isWhitespace then [] else [c]
    | r :: rs => c :: r :: rs

/-- Python `line.strip()`: drop leading and trailing whitespace. -/
def pyStrip (s : String) : String :=
  ⟨rstrip (s.data.dropWhile Char.isWhitespace)⟩

/-- The id-reading and validation prefix of the `fetch_studies` CLI command
(source lines 486-502): keep the lines starting with `Gs` or `Gb`
(stripped), fail on an empty id list, classify, and fail on a mix of
study and biosample ids.  No `GoldAPI` is consulted: this runs before any
HTTP call. -/
def fetch_studies_validate (idfile : String) (lines : List String) :
    Except String (IdType × List String) :=
  let ids := lines.filterMap fun line =>
    if strStartsWith line "Gs" || strStartsWith line "Gb" then some (pyStrip line)
    else none
  if ids.length = 0 then .error ("No ids in " ++ idfile)
  else
    let study_ids := ids.filter fun id => strStartsWith id "Gs"
    let biosample_ids := ids.filter fun id => strStartsWith id "Gb"
    if study_ids.length > 0 then
      if biosample_ids.length > 0 then .error "Cannot mix and match study and sample IDs"
      else .ok (IdType.study, ids)
    else .ok (IdType.biosample, ids)

/-- The `fetch_studies` CLI command (aggregate-output path): validate the
input file's ids, then dispatch to the study fan-out or the biosample
orchestrator.  A validation error reaches the user before any fetch. -/
def fetch_studies_cli (api : GoldAPI) (idfile : String) (lines : List String)
    (include_biosamples : Bool := false) : Except String (List Study) :=
  match fetch_studies_validate idfile lines with
  | .error e => .error e
  | .ok (IdType.study, ids) => fetch_studies api ids include_biosamples
  | .ok (IdType.biosample, ids) => .ok (fetch_studies_by_biosample_ids api ids).1

/-- Does project `p` name biosample `b`: a non-null foreign key equal to
the biosample's id.  (The weave attaches `p` to `b` exactly in this
case.) -/
def projMatches (p : Project) (b : Biosample) : Bool :=
  match p.biosampleGoldId with
  | none => false
  | some sid => decide (b.biosampleGoldId = some sid)

/-- Spec-side description of what stitching does to one biosample: append
exactly the projects of `ps` that name it. -/
def stitchSpec (ps : List Project) (b : Biosample) : Biosample :=
  { b with projects := b.projects ++ ps.filter (fun q => projMatches q b) }

/-- `hasOccurrence pat l`: does `pat` occur as a contiguous substring of
`l`?  (Spec-side notion used to phrase what `str.replace` removes.) -/
def hasOccurrence (pat : List Char) : List Char → Bool
  | [] => pat.isEmpty
  | c :: rest => leadsWith pat (c :: rest) || hasOccurrence pat rest

/-! Concrete fixtures used by the witnesses. -/

/-- An API all of whose queries return empty arrays. -/
def apiEmpty : GoldAPI where
  biosamplesByStudy := fun _ => []
  projectsByStudy := fun _ => []
  studiesByStudyId := fun _ => []
  studiesByBiosampleId := fun _ => []

/-- Responses failing on attempts 0-2 and succeeding on attempt 3. -/
def respOk3 : Nat → Nat × Nat := fun n => if n = 3 then (200, 7) else (503, 0)

/-- Responses failing on every attempt. -/
def respFail : Nat → Nat × Nat := fun _ => (503, 0)

/-- A study with biosamples B1, B2 and projects naming B1 and B3. -/
def apiStitch : GoldAPI where
  biosamplesByStudy := fun _ =>
    [{ biosampleGoldId := some "B1" }, { biosampleGoldId := some "B2" }]
  projectsByStudy := fun _ =>
    [{ projectGoldId := "P1", biosampleGoldId := some "B1" },
     { projectGoldId := "P3", biosampleGoldId := some "B3" }]
  studiesByStudyId := fun _ => []
  studiesByBiosampleId := fun _ => []

/-- Two biosamples Gb1, Gb2 both contained in the single study Gs1. -/
def apiDedup : GoldAPI where
  biosamplesByStudy := fun _ =>
    [{ biosampleGoldId := some "Gb1" }, { biosampleGoldId := some "Gb2" }]
  projectsByStudy := fun _ => []
  studiesByStudyId := fun _ => []
  studiesByBiosampleId := fun _ => [{ studyGoldId := "Gs1" }]

/-- An API whose studies query returns exactly one study. -/
def apiOneStudy : GoldAPI where
  biosamplesByStudy := fun _ => []
  projectsByStudy := fun _ => []
  studiesByStudyId := fun _ => [{ studyGoldId := "Gs9" }]
  studiesByBiosampleId := fun _ => []

/-- A concrete cache key. -/
def keyA : FetchKey :=
  { endpoint_url := "https://gold.jgi.doe.gov/rest/nmdc/biosamples"
    params := [("studyGoldId", "Gs0144570")]
    user := "user", passwd := "pass" }

/-- A network action that succeeds with payload 42. -/
def runOk : Unit → Except String Nat := fun _ => .ok 42

/-- A network action that must never be reached. -/
def runNet : Unit → Except String Nat := fun _ => .error "network hit"

/-- A project whose foreign key is JSON null. -/
def nullProject : Project := { projectGoldId := "Gp77", biosampleGoldId := none }

/-- A biosample whose own id is JSON null. -/
def nullBiosample : Biosample := { biosampleGoldId := none }

/-! Helper lemmas. -/

/-- Appending a fresh key to the cache makes it found. -/
theorem cacheLookup_append_self {α : Type} (cache : List (FetchKey × α)) (k : FetchKey)
    (v : α) (h : cacheLookup cache k = none) :
    cacheLookup (cache ++ [(k, v)]) k = some v := by
  induction cache with
  | nil => simp [cacheLookup]
  | cons kv rest ih =>
    obtain ⟨k2, v2⟩ := kv
    by_cases hk : k2 = k
    · simp [cacheLookup, hk] at h
    · simp only [cacheLookup, hk, if_false, List.cons_append] at h ⊢
      exact ih h

/-- `str.replace` leaves a string with no occurrence of the pattern
untouched. -/
theorem replaceAllAux_no_occurrence (pat : List Char) :
    ∀ l : List Char, hasOccurrence pat l = false → replaceAllAux pat 0 l = l := by
  intro l
  induction l with
  | nil => intro _; rfl
  | cons c rest ih =>
    intro h
    rw [hasOccurrence, Bool.or_eq_false_iff] at h
    obtain ⟨h1, h2⟩ := h
    simp [replaceAllAux, h1, ih h2]

/-- A list starts with itself followed by anything. -/
theorem leadsWith_append (pat t : List Char) : leadsWith pat (pat ++ t) = true := by
  induction pat with
  | nil => rfl
  | cons p ps ih => simp [leadsWith, ih]

/-- Skipping exactly the first `l.length` characters of `l ++ t` resumes
the scan at `t`. -/
theorem replaceAllAux_skip (pat : List Char) :
    ∀ l t : List Char, replaceAllAux pat l.length (l ++ t) = replaceAllAux pat 0 t := by
  intro l
  induction l with
  | nil => intro t; rfl
  | cons c rest ih =>
    intro t
    simpa [replaceAllAux] using ih t

/-- A leading occurrence of the (nonempty) pattern is dropped whole. -/
theorem replaceAllAux_strip (c : Char) (cs t : List Char) :
    replaceAllAux (c :: cs) 0 ((c :: cs) ++ t) = replaceAllAux (c :: cs) 0 t := by
  have hl : leadsWith (c :: cs) (c :: (cs ++ t)) = true := by
    simpa using leadsWith_append (c :: cs) t
  have h1 : replaceAllAux (c :: cs) 0 ((c :: cs) ++ t)
      = replaceAllAux (c :: cs) cs.length (cs ++ t) := by
    simp [replaceAllAux, hl]
  rw [h1, replaceAllAux_skip]

/-! Claim theorems. -/

/-- C3: when the HTTP request returns a non-200 status on attempts 0, 1
and 2 and a 200 on attempt 3, `_fetch_url` returns the payload of the
fourth (successful) response, having slept `5^0 + 5^1 + 5^2 = 31`
seconds in total. -/
theorem fetch_url_three_failures_then_success {α : Type} (url : String)
    (responses : Nat → Nat × α)
    (h0 : (responses 0).1 ≠ 200) (h1 : (responses 1).1 ≠ 200)
    (h2 : (responses 2).1 ≠ 200) (h3 : (responses 3).1 = 200) :
    fetch_url url responses = .ok ((responses 3).2, 31) := by
  simp [fetch_url, fetch_url_go, h0, h1, h2, h3]

/-- Witness for C3 at a concrete response schedule. -/
theorem fetch_url_three_failures_then_success_witness :
    fetch_url "https://gold.example/rest" respOk3 = .ok (7, 31) :=
  fetch_url_three_failures_then_success "https://gold.example/rest" respOk3
    (by decide) (by decide) (by decide) (by decide)

/-- C4: when every one of the four attempts returns a non-200 status,
`_fetch_url` raises (returns the error case) with a message naming the
endpoint URL and the attempt count 4, and returns no value. -/
theorem fetch_url_exhausted_raises {α : Type} (url : String) (responses : Nat → Nat × α)
    (h : ∀ i, i < 4 → (responses i).1 ≠ 200) :
    fetch_url url responses = .error (fetchFailMsg url 4) ∧
      url.data <:+: (fetchFailMsg url 4).data := by
  constructor
  · have h0 := h 0 (by norm_num)
    have h1 := h 1 (by norm_num)
    have h2 := h 2 (by norm_num)
    have h3 := h 3 (by norm_num)
    simp [fetch_url, fetch_url_go, h0, h1, h2, h3]
  · refine ⟨"API call to ".data, (" failed after " ++ toString 4 ++ " attempts").data, ?_⟩
    simp [fetchFailMsg, String.data_append, List.append_assoc]

/-- Witness for C4 at a schedule of four failures. -/
theorem fetch_url_exhausted_raises_witness :
    fetch_url "myurl" respFail = .error (fetchFailMsg "myurl" 4) ∧
      "myurl".data <:+: (fetchFailMsg "myurl" 4).data :=
  fetch_url_exhausted_raises "myurl" respFail (fun i _ => by simp [respFail])

/-- C5: when the studies query for a biosample id returns zero results,
`fetch_study_by_biosample_id` returns a study whose `studyGoldId` is
exactly `GsFAKE-<normalized id>`, raising no error (the function is
total). -/
theorem fetch_study_by_biosample_id_stub (api : GoldAPI) (id : String) (b : Bool)
    (h : api.studiesByBiosampleId (normalize_id id) = []) :
    (fetch_study_by_biosample_id api id b).studyGoldId = "GsFAKE-" ++ normalize_id id := by
  cases b <;> simp [fetch_study_by_biosample_id, h]

/-- Witness for C5 on an API with no studies. -/
theorem fetch_study_by_biosample_id_stub_witness :
    (fetch_study_by_biosample_id apiEmpty "gold:Gb0051032" false).studyGoldId
      = "GsFAKE-Gb0051032" :=
  (fetch_study_by_biosample_id_stub apiEmpty "gold:Gb0051032" false rfl).trans (by decide)

/-- C6: a cold-cache fetch at a key performs exactly one network call and,
once it succeeded, a second fetch at the identical key is answered from
the memoized cache with the same payload and zero network calls — the
second `run` action is never consulted. -/
theorem memoized_fetch_hits_cache {α : Type} (cache : List (FetchKey × α)) (k : FetchKey)
    (run1 run2 : Unit → Except String α) (v : α)
    (hcold : cacheLookup cache k = none) (hok : run1 () = .ok v) :
    (memoized_fetch cache k run1).2.2 = 1 ∧
      memoized_fetch (memoized_fetch cache k run1).2.1 k run2 =
        (.ok v, (memoized_fetch cache k run1).2.1, 0) := by
  have h1 : memoized_fetch cache k run1 = (.ok v, cache ++ [(k, v)], 1) := by
    simp [memoized_fetch, hcold, hok]
  rw [h1]
  exact ⟨rfl, by simp [memoized_fetch, cacheLookup_append_self cache k v hcold]⟩

/-- Witness for C6: two fetches at `keyA`, one network call in total. -/
theorem memoized_fetch_hits_cache_witness :
    (memoized_fetch ([] : List (FetchKey × Nat)) keyA runOk).2.2 = 1 ∧
      memoized_fetch (memoized_fetch ([] : List (FetchKey × Nat)) keyA runOk).2.1 keyA runNet =
        (.ok 42, (memoized_fetch ([] : List (FetchKey × Nat)) keyA runOk).2.1, 0) :=
  memoized_fetch_hits_cache [] keyA runOk runNet 42 rfl rfl

/-- C7 counterexample: `xgold:y` does not carry the `gold:` prefix, yet
`_normalize_id` does not return it unchanged — Python `str.replace`
removes the inner occurrence, yielding `xy`. -/
theorem normalize_id_changes_unprefixed :
    leadsWith "gold:".data "xgold:y".data = false ∧
      normalize_id "xgold:y" = "xy" ∧ normalize_id "xgold:y" ≠ "xgold:y" := by
  decide

/-- C7 amended: `_normalize_id` removes every occurrence of the substring
`gold:` (Python `str.replace` semantics): a string with no occurrence is
returned unchanged, a leading `gold:` prefix is stripped (when the
remainder has no further occurrence), and `gold:Gb123` becomes `Gb123`. -/
theorem normalize_id_amended :
    (∀ id : String, hasOccurrence "gold:".data id.data = false → normalize_id id = id) ∧
      (∀ s : String, hasOccurrence "gold:".data s.data = false →
        normalize_id ⟨"gold:".data ++ s.data⟩ = s) ∧
      normalize_id "gold:Gb123" = "Gb123" := by
  have hno : ∀ id : String, hasOccurrence "gold:".data id.data = false →
      normalize_id id = id := by
    intro id h
    obtain ⟨d⟩ := id
    simp only [normalize_id]
    rw [replaceAllAux_no_occurrence _ _ h]
  refine ⟨hno, ?_, by decide⟩
  intro s h
  have hstrip : replaceAllAux "gold:".data 0 ("gold:".data ++ s.data)
      = replaceAllAux "gold:".data 0 s.data := by
    rw [show "gold:".data = 'g' :: "old:".data from rfl]
    exact replaceAllAux_strip 'g' "old:".data s.data
  obtain ⟨d⟩ := s
  simp only [normalize_id] at hstrip ⊢
  rw [hstrip, replaceAllAux_no_occurrence _ _ h]

/-- Witness for the amended C7: an id with no `gold:` occurrence is
unchanged. -/
theorem normalize_id_amended_witness :
    normalize_id "Gb0011929" = "Gb0011929" :=
  normalize_id_amended.1 "Gb0011929" (by decide)

/-- C9: an empty studies result makes `fetch_study` fail with the
`IndexError` of `results[0]` (no stub study is synthesized, unlike
`fetch_study_by_biosample_id`); when at least one study is returned, the
first one is returned, with biosamples injected when requested. -/
theorem fetch_study_first_or_index_error (api : GoldAPI) (id : String) (b : Bool) :
    (api.studiesByStudyId (normalize_id id) = [] →
        fetch_study api id b = .error "list index out of range") ∧
      (∀ (s : Study) (rest : List Study),
        api.studiesByStudyId (normalize_id id) = s :: rest →
          fetch_study api id b =
            .ok (if b then
                  { s with biosamples := fetch_biosamples_by_study api (normalize_id id) true }
                 else s)) := by
  constructor
  · intro h; simp [fetch_study, h]
  · intro s rest h; simp [fetch_study, h]

/-- Witness for C9: the error case on an empty API and the first-result
case on a one-study API. -/
theorem fetch_study_first_or_index_error_witness :
    fetch_study apiEmpty "Gs0" false = .error "list index out of range" ∧
      fetch_study apiOneStudy "Gs9" false = .ok { studyGoldId := "Gs9" } :=
  ⟨(fetch_study_first_or_index_error apiEmpty "Gs0" false).1 rfl,
   ((fetch_study_first_or_index_error apiOneStudy "Gs9" false).2 { studyGoldId := "Gs9" }
      [] rfl).trans rfl⟩

/-- C10: a project whose `biosampleGoldId` is JSON null is skipped by the
weaving loop before the unmatched-project check: the step changes neither
the samples nor the warning log (no logged warning), even when a fetched
biosample with a null id is a key of `samples_by_id`; consequently
null-keyed projects can be dropped from the project list without changing
the weave of `fetch_biosamples_by_study` at all. -/
theorem weave_skips_null_projects :
    (∀ (bs : List Biosample) (ws : List String) (p : Project),
        p.biosampleGoldId = none → weaveStep bs ws p = (bs, ws)) ∧
      ∀ (bs : List Biosample) (ps : List Project),
        weave bs (ps.filter fun p => p.biosampleGoldId.isSome) = weave bs ps := by
  have hstep : ∀ (bs : List Biosample) (ws : List String) (p : Project),
      p.biosampleGoldId = none → weaveStep bs ws p = (bs, ws) := by
    intro bs ws p hp
    simp [weaveStep, hp]
  refine ⟨hstep, ?_⟩
  have hgen : ∀ (ps : List Project) (st : List Biosample × List String),
      (ps.filter fun p => p.biosampleGoldId.isSome).foldl
          (fun st p => weaveStep st.1 st.2 p) st =
        ps.foldl (fun st p => weaveStep st.1 st.2 p) st := by
    intro ps
    induction ps with
    | nil => intro st; rfl
    | cons p ps ih =>
      intro st
      cases hp : p.biosampleGoldId with
      | none =>
        simp only [List.filter_cons, hp, Option.isSome_none, Bool.false_eq_true, if_false,
          List.foldl_cons]
        rw [hstep st.1 st.2 p hp]
        exact ih st
      | some sid =>
        simp only [List.filter_cons, hp, Option.isSome_some, if_true, List.foldl_cons]
        exact ih _
  intro bs ps
  exact hgen ps (bs, [])

/-- Witness for C10: a null-keyed project is skipped silently even though
the sample dict has a sample under the `None` key. -/
theorem weave_skips_null_projects_witness :
    dictLookup [nullBiosample] none = some 0 ∧
      weaveStep [nullBiosample] [] nullProject = ([nullBiosample], []) :=
  ⟨by decide, weave_skips_null_projects.1 [nullBiosample] [] nullProject rfl⟩

/-- `dictLookup` finds nothing exactly when no sample has the key. -/
theorem dictLookup_eq_none_iff (bs : List Biosample) (key : Option String) :
    dictLookup bs key = none ↔ ∀ b ∈ bs, b.biosampleGoldId ≠ key := by
  induction bs with
  | nil => simp [dictLookup]
  | cons b rest ih =>
    cases hr : dictLookup rest key with
    | some j =>
      simp only [dictLookup, hr]
      constructor
      · intro h; exact Option.noConfusion h
      · intro h
        exfalso
        have hall : ∀ b' ∈ rest, b'.biosampleGoldId ≠ key :=
          fun b' hb' => h b' (List.mem_cons_of_mem _ hb')
        have hnone := ih.mpr hall
        rw [hr] at hnone
        exact Option.noConfusion hnone
    | none =>
      by_cases hb : b.biosampleGoldId = key
      · simp only [dictLookup, hr, if_pos hb]
        constructor
        · intro h; exact Option.noConfusion h
        · intro h; exact absurd hb (h b (List.mem_cons_self _ _))
      · simp only [dictLookup, hr, if_neg hb]
        constructor
        · intro _ b' hb'
          rcases List.mem_cons.mp hb' with h1 | h2
          · rw [h1]; exact hb
          · exact (ih.mp hr) b' h2
        · intro _; trivial

/-- A found key belongs to some sample. -/
theorem dictLookup_some_mem (bs : List Biosample) (key : Option String) (i : Nat)
    (h : dictLookup bs key = some i) : ∃ b ∈ bs, b.biosampleGoldId = key := by
  by_contra hc
  push_neg at hc
  have hnone := (dictLookup_eq_none_iff bs key).mpr hc
  rw [h] at hnone
  exact Option.noConfusion hnone

/-- `projMatches` only reads the sample's id, so appending a project to a
sample does not change who matches it. -/
theorem projMatches_addProject (q p : Project) (b : Biosample) :
    projMatches q (addProject p b) = projMatches q b := by
  cases hq : q.biosampleGoldId <;> simp [projMatches, addProject, hq]

/-- Under unique sample ids, one weave step attaches the project to
exactly the matching sample, pointwise over the sample list. -/
theorem weaveStep_fst (p : Project) (ws : List String) :
    ∀ bs : List Biosample, (bs.filterMap Biosample.biosampleGoldId).Nodup →
      (weaveStep bs ws p).1 =
        bs.map (fun b => if projMatches p b then addProject p b else b) := by
  cases hp : p.biosampleGoldId with
  | none =>
    intro bs _
    simp [weaveStep, hp, projMatches]
  | some sid =>
    intro bs
    induction bs with
    | nil => intro _; simp [weaveStep, hp, dictLookup]
    | cons b rest ih =>
      intro h
      have hrest : (rest.filterMap Biosample.biosampleGoldId).Nodup := by
        cases hb : b.biosampleGoldId with
        | none => simpa [List.filterMap_cons, hb] using h
        | some v =>
          rw [List.filterMap_cons] at h
          simp only [hb] at h
          exact List.Nodup.of_cons h
      cases hr : dictLookup rest (some sid) with
      | some j =>
        have hbne : b.biosampleGoldId ≠ some sid := by
          intro hb
          obtain ⟨b', hb', hbid⟩ := dictLookup_some_mem rest (some sid) j hr
          have hmem : sid ∈ rest.filterMap Biosample.biosampleGoldId :=
            List.mem_filterMap.mpr ⟨b', hb', hbid⟩
          rw [List.filterMap_cons] at h
          simp only [hb] at h
          exact (List.nodup_cons.mp h).1 hmem
        have hmrest : modifyIdx (addProject p) rest j =
            rest.map (fun b => if projMatches p b then addProject p b else b) := by
          have hih := ih hrest
          simpa [weaveStep, hp, hr] using hih
        have hmb : projMatches p b = false := by
          simp [projMatches, hp, hbne]
        simp only [weaveStep, hp, dictLookup, hr]
        simp [modifyIdx, hmb, hmrest]
      | none =>
        have hrest_all := (dictLookup_eq_none_iff rest (some sid)).mp hr
        have hmapid :
            rest.map (fun b => if projMatches p b then addProject p b else b) = rest := by
          have hpt : ∀ b' ∈ rest,
              (if projMatches p b' then addProject p b' else b') = id b' := by
            intro b' hb'
            have hf : projMatches p b' = false := by
              simp [projMatches, hp, hrest_all b' hb']
            simp [hf]
          rw [List.map_congr_left hpt, List.map_id]
        by_cases hb : b.biosampleGoldId = some sid
        · have hmb : projMatches p b = true := by simp [projMatches, hp, hb]
          simp only [weaveStep, hp, dictLookup, hr, if_pos hb]
          simp [modifyIdx, hmb, hmapid]
        · have hmb : projMatches p b = false := by simp [projMatches, hp, hb]
          simp only [weaveStep, hp, dictLookup, hr, if_neg hb]
          simp [hmb, hmapid]

/-- The sample component of a weave step does not depend on the warnings
accumulated so far. -/
theorem weaveStep_fst_ws (bs : List Biosample) (ws ws2 : List String) (p : Project) :
    (weaveStep bs ws p).1 = (weaveStep bs ws2 p).1 := by
  cases hp : p.biosampleGoldId with
  | none => simp [weaveStep, hp]
  | some sid =>
    cases hr : dictLookup bs (some sid) with
    | none => simp [weaveStep, hp, hr]
    | some i => simp [weaveStep, hp, hr]

/-- The sample component of the weaving fold is the fold of the sample
components. -/
theorem weave_foldl_fst : ∀ (ps : List Project) (bs : List Biosample) (ws : List String),
    (ps.foldl (fun st p => weaveStep st.1 st.2 p) (bs, ws)).1 =
      ps.foldl (fun bs p => (weaveStep bs [] p).1) bs := by
  intro ps
  induction ps with
  | nil => intro bs ws; rfl
  | cons p ps ih =>
    intro bs ws
    simp only [List.foldl_cons]
    calc (ps.foldl (fun st p => weaveStep st.1 st.2 p) (weaveStep bs ws p)).1
        = ps.foldl (fun bs p => (weaveStep bs [] p).1) (weaveStep bs ws p).1 :=
          ih (weaveStep bs ws p).1 (weaveStep bs ws p).2
      _ = ps.foldl (fun bs p => (weaveStep bs [] p).1) (weaveStep bs [] p).1 := by
          rw [weaveStep_fst_ws bs ws [] p]

/-- Attaching a project never changes any sample id. -/
theorem modifyIdx_map_bid (p : Project) :
    ∀ (bs : List Biosample) (i : Nat),
      (modifyIdx (addProject p) bs i).map Biosample.biosampleGoldId =
        bs.map Biosample.biosampleGoldId := by
  intro bs
  induction bs with
  | nil => intro i; rfl
  | cons b rest ih =>
    intro i
    cases i with
    | zero => simp [modifyIdx, addProject]
    | succ n => simp [modifyIdx, ih n]

/-- One weave step preserves the list of sample ids. -/
theorem weaveStep_fst_map_bid (bs : List Biosample) (ws : List String) (p : Project) :
    ((weaveStep bs ws p).1).map Biosample.biosampleGoldId =
      bs.map Biosample.biosampleGoldId := by
  cases hp : p.biosampleGoldId with
  | none => simp [weaveStep, hp]
  | some sid =>
    cases hr : dictLookup bs (some sid) with
    | none => simp [weaveStep, hp, hr]
    | some i => simp [weaveStep, hp, hr, modifyIdx_map_bid]

/-- The whole weave preserves the list of sample ids (no sample added,
removed or re-identified). -/
theorem weave_fst_map_bid (ps : List Project) (bs : List Biosample) :
    ((weave bs ps).1).map Biosample.biosampleGoldId =
      bs.map Biosample.biosampleGoldId := by
  unfold weave
  rw [weave_foldl_fst]
  induction ps generalizing bs with
  | nil => rfl
  | cons p ps ih =>
    simp only [List.foldl_cons]
    rw [ih, weaveStep_fst_map_bid]

/-- Lists with equal id maps have equal id filterMaps. -/
theorem filterMap_bid_congr {bs1 bs2 : List Biosample}
    (h : bs1.map Biosample.biosampleGoldId = bs2.map Biosample.biosampleGoldId) :
    bs1.filterMap Biosample.biosampleGoldId = bs2.filterMap Biosample.biosampleGoldId := by
  have h1 : (bs1.map Biosample.biosampleGoldId).filterMap id
      = bs1.filterMap Biosample.biosampleGoldId := List.filterMap_map _ _ _
  have h2 : (bs2.map Biosample.biosampleGoldId).filterMap id
      = bs2.filterMap Biosample.biosampleGoldId := List.filterMap_map _ _ _
  rw [← h1, ← h2, h]

/-- `projMatches` only reads the sample's id. -/
theorem projMatches_mk (q : Project) (b : Biosample) (prjs : List Project)
    (flds : List (String × String)) :
    projMatches q
        { biosampleGoldId := b.biosampleGoldId, projects := prjs, fields := flds } =
      projMatches q b := by
  cases hq : q.biosampleGoldId <;> simp [projMatches, hq]

/-- Characterization of the weave: under unique sample ids, every sample
keeps its place and fields and gains, in order, exactly the projects
whose (non-null) `biosampleGoldId` equals its own id. -/
theorem weave_fst (ps : List Project) :
    ∀ bs : List Biosample, (bs.filterMap Biosample.biosampleGoldId).Nodup →
      (weave bs ps).1 =
        bs.map (fun b =>
          { b with projects := b.projects ++ ps.filter (fun q => projMatches q b) }) := by
  induction ps with
  | nil =>
    intro bs _
    simp only [weave, List.foldl_nil, List.filter_nil, List.append_nil]
    have hpt : ∀ b ∈ bs, b = ({ b with projects := b.projects } : Biosample) := by
      intro b _
      rfl
    calc bs = bs.map id := (List.map_id bs).symm
      _ = bs.map (fun b => { b with projects := b.projects }) := List.map_congr_left hpt
  | cons p ps ih =>
    intro bs h
    have hstep : (weaveStep bs [] p).1 =
        bs.map (fun b => if projMatches p b then addProject p b else b) :=
      weaveStep_fst p [] bs h
    have hmbid : (bs.map (fun b => if projMatches p b then addProject p b else b)).map
        Biosample.biosampleGoldId = bs.map Biosample.biosampleGoldId := by
      rw [List.map_map]
      apply List.map_congr_left
      intro b _
      by_cases hq : projMatches p b
      · simp [Function.comp, hq, addProject]
      · simp [Function.comp, hq]
    have hnodup2 : ((bs.map (fun b => if projMatches p b then addProject p b else b)).filterMap
        Biosample.biosampleGoldId).Nodup := by
      rw [filterMap_bid_congr hmbid]
      exact h
    have hw : (weave bs (p :: ps)).1 =
        (weave (bs.map (fun b => if projMatches p b then addProject p b else b)) ps).1 := by
      unfold weave
      rw [weave_foldl_fst, weave_foldl_fst, List.foldl_cons, hstep]
    rw [hw, ih _ hnodup2, List.map_map]
    apply List.map_congr_left
    intro b _
    by_cases hq : projMatches p b
    · simp [Function.comp, hq, addProject, projMatches_mk, List.filter_cons,
        List.append_assoc]
    · simp [Function.comp, hq, List.filter_cons]

/-- C1: for every study id (with the fetched biosamples carrying distinct
non-null ids, the presupposition of "the" matching biosample),
`fetch_biosamples_by_study id true` returns the full fetched biosample
list — none removed, order kept — where each biosample gains exactly the
fetched projects whose `biosampleGoldId` equals its own, and every
project matching no fetched biosample is dropped without any error (the
function is total and the commented-out `raise` is never taken). -/
theorem fetch_biosamples_by_study_stitches (api : GoldAPI) (id : String)
    (h : ((api.biosamplesByStudy (normalize_id id)).filterMap
        Biosample.biosampleGoldId).Nodup) :
    fetch_biosamples_by_study api id true =
      (api.biosamplesByStudy (normalize_id id)).map
        (stitchSpec (fetch_projects_by_study api (normalize_id id))) := by
  unfold fetch_biosamples_by_study
  simp only [EXCLUSION_LIST, List.not_mem_nil, if_false, if_true]
  exact weave_fst _ _ h

/-- Witness for C1: the stitching example — B1 gains its project, the
project naming the unknown B3 is dropped, B2 gains nothing, and both
biosamples survive. -/
theorem fetch_biosamples_by_study_stitches_witness :
    fetch_biosamples_by_study apiStitch "Gs0144570" true =
      [{ biosampleGoldId := some "B1",
         projects := [{ projectGoldId := "P1", biosampleGoldId := some "B1" }] },
       { biosampleGoldId := some "B2" }] :=
  (fetch_biosamples_by_study_stitches apiStitch "Gs0144570" (by decide)).trans (by decide)

/-- The keys of the dict after an assignment: unchanged for a known key,
extended by the new key otherwise. -/
theorem dictInsert_keys (m : List (Option String × String)) (k : Option String)
    (v : String) :
    (dictInsert m k v).map Prod.fst =
      if k ∈ m.map Prod.fst then m.map Prod.fst else m.map Prod.fst ++ [k] := by
  unfold dictInsert
  by_cases hmem : k ∈ m.map Prod.fst
  · rw [if_pos hmem, if_pos hmem, List.map_map]
    apply List.map_congr_left
    intro kv _
    by_cases hk : kv.1 = k
    · simp [Function.comp, hk]
    · simp [Function.comp, hk]
  · rw [if_neg hmem, if_neg hmem]
    simp

/-- Key membership after folding the per-biosample dict assignments of the
orchestrator: a key is present exactly when it was before or is the id of
one of the biosamples. -/
theorem foldl_dictInsert_keys_mem (v : String) :
    ∀ (l : List Biosample) (m : List (Option String × String)) (k : Option String),
      k ∈ ((l.foldl (fun m2 b => dictInsert m2 b.biosampleGoldId v) m).map Prod.fst) ↔
        (k ∈ m.map Prod.fst ∨ k ∈ l.map Biosample.biosampleGoldId) := by
  intro l
  induction l with
  | nil => intro m k; simp
  | cons b l ih =>
    intro m k
    rw [List.foldl_cons, ih (dictInsert m b.biosampleGoldId v) k, dictInsert_keys]
    by_cases hmem : b.biosampleGoldId ∈ m.map Prod.fst
    · rw [if_pos hmem]
      have hk : k = b.biosampleGoldId → k ∈ m.map Prod.fst := fun h => h ▸ hmem
      simp only [List.map_cons, List.mem_cons]
      tauto
    · rw [if_neg hmem]
      simp only [List.mem_append, List.mem_singleton, List.map_cons, List.mem_cons]
      tauto

/-- The id list of the stitched biosamples is the id list of the raw fetch
(weaving adds no sample, drops none, renames none). -/
theorem fetch_biosamples_map_bid (api : GoldAPI) (id : String) :
    (fetch_biosamples_by_study api id true).map Biosample.biosampleGoldId =
      (api.biosamplesByStudy (normalize_id id)).map Biosample.biosampleGoldId := by
  unfold fetch_biosamples_by_study
  simp only [EXCLUSION_LIST, List.not_mem_nil, if_false, if_true]
  exact weave_fst_map_bid _ _

/-- C2 counterexample: the claim's universal "at most one full-study fetch
per distinct containing study" fails on the source.  The membership test
of the loop (source line 220) compares the raw input id against the
`biosampleGoldId` values the API returned for the already-fetched study,
while normalization happens only inside `fetch_study_by_biosample_id`:
for ids `Gb1` and `gold:Gb1` — equal after normalization, resolving to
the same study `Gs1`, the first listed among `Gs1`'s fetched biosamples —
the CURIE spelling is not a key of the dict, so a second full-study fetch
is issued (fetch log has both ids) and the very same study record is
returned twice. -/
theorem fetch_studies_by_biosample_ids_refetches :
    normalize_id "gold:Gb1" = normalize_id "Gb1" ∧
      apiDedup.studiesByBiosampleId (normalize_id "gold:Gb1") =
        apiDedup.studiesByBiosampleId (normalize_id "Gb1") ∧
      some "Gb1" ∈ (apiDedup.biosamplesByStudy (normalize_id "Gs1")).map
          Biosample.biosampleGoldId ∧
      (fetch_studies_by_biosample_ids apiDedup ["Gb1", "gold:Gb1"]).2 =
        ["Gb1", "gold:Gb1"] ∧
      (fetch_studies_by_biosample_ids apiDedup ["Gb1", "gold:Gb1"]).1 =
        [{ studyGoldId := "Gs1",
           biosamples := [{ biosampleGoldId := some "Gb1" },
                          { biosampleGoldId := some "Gb2" }] },
         { studyGoldId := "Gs1",
           biosamples := [{ biosampleGoldId := some "Gb1" },
                          { biosampleGoldId := some "Gb2" }] }] := by
  decide

/-- C2 (amended): deduplication is keyed by the raw input id's membership
among the API-returned `biosampleGoldId` values of already-fetched
studies, not by normalized biosample identity.  When two input biosample
ids B1, B2 both resolve to the same study S1 — the studies query for B1
returns S1 and the fetched biosample list of S1 contains both ids
verbatim — `fetch_studies_by_biosample_ids [B1, B2]` issues exactly one
full-study fetch (for B1, as the fetch log shows) and returns exactly one
Study record, S1 with its full biosample list attached, containing both
B1 and B2. -/
theorem fetch_studies_by_biosample_ids_dedup (api : GoldAPI) (B1 B2 : String) (S1 : Study)
    (h1 : api.studiesByBiosampleId (normalize_id B1) = [S1])
    (hB1 : some B1 ∈ (api.biosamplesByStudy (normalize_id S1.studyGoldId)).map
        Biosample.biosampleGoldId)
    (hB2 : some B2 ∈ (api.biosamplesByStudy (normalize_id S1.studyGoldId)).map
        Biosample.biosampleGoldId) :
    fetch_studies_by_biosample_ids api [B1, B2] =
        ([{ S1 with biosamples := fetch_biosamples_by_study api S1.studyGoldId true }],
         [B1]) ∧
      some B1 ∈ (fetch_biosamples_by_study api S1.studyGoldId true).map
          Biosample.biosampleGoldId ∧
      some B2 ∈ (fetch_biosamples_by_study api S1.studyGoldId true).map
          Biosample.biosampleGoldId := by
  have hmapbid := fetch_biosamples_map_bid api S1.studyGoldId
  have hsf : fetch_study_by_biosample_id api B1 true =
      { S1 with biosamples := fetch_biosamples_by_study api S1.studyGoldId true } := by
    simp [fetch_study_by_biosample_id, h1]
  have hc2 : some B2 ∈ (((fetch_biosamples_by_study api S1.studyGoldId true).foldl
      (fun m2 b => dictInsert m2 b.biosampleGoldId S1.studyGoldId)
      ([] : List (Option String × String))).map Prod.fst) := by
    rw [foldl_dictInsert_keys_mem]
    right
    rw [hmapbid]
    exact hB2
  refine ⟨?_, hmapbid ▸ hB1, hmapbid ▸ hB2⟩
  unfold fetch_studies_by_biosample_ids
  unfold fetch_studies_by_biosample_ids_go
  rw [if_neg (by simp)]
  simp only [hsf]
  unfold fetch_studies_by_biosample_ids_go
  rw [if_pos hc2]
  simp [fetch_studies_by_biosample_ids_go]

/-- Witness for C2: ids Gb1 and Gb2 both in study Gs1 — one fetch, one
returned study holding both biosamples. -/
theorem fetch_studies_by_biosample_ids_dedup_witness :
    fetch_studies_by_biosample_ids apiDedup ["Gb1", "Gb2"] =
      ([{ studyGoldId := "Gs1",
          biosamples := [{ biosampleGoldId := some "Gb1" },
                         { biosampleGoldId := some "Gb2" }] }],
       ["Gb1"]) :=
  ((fetch_studies_by_biosample_ids_dedup apiDedup "Gb1" "Gb2" { studyGoldId := "Gs1" }
      rfl (by decide) (by decide)).1).trans (by decide)

/-- `rstrip` keeps a non-whitespace head. -/
theorem rstrip_cons_of_not_ws (c : Char) (l : List Char) (h : c.isWhitespace = false) :
    rstrip (c :: l) = c :: rstrip l := by
  cases hr : rstrip l with
  | nil => simp [rstrip, hr, h]
  | cons r rs => simp [rstrip, hr]

/-- Stripping whitespace keeps a two-character non-whitespace head. -/
theorem pyStrip_keeps_head2 (a b : Char) (ha : a.isWhitespace = false)
    (hb : b.isWhitespace = false) (s : String)
    (h : leadsWith [a, b] s.data = true) :
    leadsWith [a, b] (pyStrip s).data = true := by
  have hd : (pyStrip s).data = rstrip (s.data.dropWhile Char.isWhitespace) := rfl
  rw [hd]
  revert h
  generalize s.data = l
  intro h
  match l, h with
  | [], h => simp [leadsWith] at h
  | [c1], h => simp [leadsWith] at h
  | c1 :: c2 :: t, h =>
    simp only [leadsWith, Bool.and_eq_true, beq_iff_eq] at h
    obtain ⟨h1, h2, -⟩ := h
    subst h1
    subst h2
    rw [List.dropWhile_cons, if_neg (by simp [ha]), rstrip_cons_of_not_ws a _ ha,
      rstrip_cons_of_not_ws b _ hb]
    simp [leadsWith]

/-- C8: an identifier file containing at least one line starting with `Gs`
and at least one starting with `Gb` makes the `fetch-studies` command's
validation fail with the mix-and-match error; the validation consults no
`GoldAPI` at all, and the command as a whole returns that error for every
API — the failure precedes any HTTP call. -/
theorem fetch_studies_cli_mixed_ids_fatal (api : GoldAPI) (idfile : String)
    (lines : List String) (ib : Bool)
    (hGs : ∃ l ∈ lines, strStartsWith l "Gs" = true)
    (hGb : ∃ l ∈ lines, strStartsWith l "Gb" = true) :
    fetch_studies_validate idfile lines =
        .error "Cannot mix and match study and sample IDs" ∧
      fetch_studies_cli api idfile lines ib =
        .error "Cannot mix and match study and sample IDs" := by
  obtain ⟨lgs, hmemGs, hpGs⟩ := hGs
  obtain ⟨lgb, hmemGb, hpGb⟩ := hGb
  have hsGs : strStartsWith (pyStrip lgs) "Gs" = true :=
    pyStrip_keeps_head2 'G' 's' (by decide) (by decide) lgs hpGs
  have hsGb : strStartsWith (pyStrip lgb) "Gb" = true :=
    pyStrip_keeps_head2 'G' 'b' (by decide) (by decide) lgb hpGb
  have hidsGs : pyStrip lgs ∈ lines.filterMap (fun line =>
      if strStartsWith line "Gs" || strStartsWith line "Gb" then some (pyStrip line)
      else none) :=
    List.mem_filterMap.mpr ⟨lgs, hmemGs, by rw [hpGs]; rfl⟩
  have hidsGb : pyStrip lgb ∈ lines.filterMap (fun line =>
      if strStartsWith line "Gs" || strStartsWith line "Gb" then some (pyStrip line)
      else none) :=
    List.mem_filterMap.mpr ⟨lgb, hmemGb, by rw [hpGb]; simp⟩
  have hval : fetch_studies_validate idfile lines =
      .error "Cannot mix and match study and sample IDs" := by
    unfold fetch_studies_validate
    rw [if_neg (by have := List.length_pos_of_mem hidsGs; omega)]
    rw [if_pos (List.length_pos_of_mem (List.mem_filter.mpr ⟨hidsGs, hsGs⟩))]
    rw [if_pos (List.length_pos_of_mem (List.mem_filter.mpr ⟨hidsGb, hsGb⟩))]
  exact ⟨hval, by simp [fetch_studies_cli, hval]⟩

/-- Witness for C8 on a two-line file mixing a study and a biosample id. -/
theorem fetch_studies_cli_mixed_ids_fatal_witness :
    fetch_studies_validate "ids.txt" ["Gs0114663", "Gb0011929"] =
        .error "Cannot mix and match study and sample IDs" ∧
      fetch_studies_cli apiEmpty "ids.txt" ["Gs0114663", "Gb0011929"] false =
        .error "Cannot mix and match study and sample IDs" :=
  fetch_studies_cli_mixed_ids_fatal apiEmpty "ids.txt" ["Gs0114663", "Gb0011929"] false
    ⟨"Gs0114663", by decide, by decide⟩ ⟨"Gb0011929", by decide, by decide⟩
